import Mathlib

/-!
Verification of the allocation-tracking state machine of `leak_tracker.c`.

The C file keeps process-wide mutable state: a singly linked list of active
allocations (`head_allocs`, the Ledger), a singly linked list of freed
pointers (`head_freed`, the Release History), six `size_t` counters and an
`atexit` registration flag.  We embed that state as a structure and each
wrapper (`my_malloc`, `my_calloc`, `my_realloc`, `my_free`) as a pure state
transformer.  Pointer identities are opaque addresses, modelled as `Nat`
with `0` playing the role of the C `NULL` pointer.  The underlying
allocator's answers (the pointer returned by the real `malloc`/`calloc`/
`realloc`, and whether the tracker's own metadata-node allocations succeed)
are nondeterministic inputs, so they are passed to each operation as
explicit oracle arguments: a returned pointer of `0` models a `NULL`
(failed) underlying allocation, and a `Bool` oracle models whether a
tracking node (`AllocInfo` / `FreedInfo`) could itself be allocated.
-/

namespace LeakTracker

/-- Pointer identities: opaque address values, `0` is the C `NULL`. -/
abbrev Ptr := Nat

/-- `struct AllocInfo` from leak_tracker.c: one currently-live allocation
(the `next` field becomes the list structure). -/
structure AllocInfo where
  ptr : Ptr
  size : Nat
  file : String
  line : Int
deriving DecidableEq, Repr

/-- The process-wide mutable state of leak_tracker.c: the active-allocation
list (Ledger), the freed-pointer list (Release History), the six counters
and the `atexit_registered` latch. -/
structure TrackerState where
  head_allocs : List AllocInfo
  head_freed : List Ptr
  total_alloc_calls : Nat
  total_free_calls : Nat
  total_bytes_allocated : Nat
  total_bytes_freed : Nat
  invalid_free_count : Nat
  double_free_count : Nat
  atexit_registered : Bool
deriving DecidableEq, Repr

/-- The state at process start: both lists empty, all counters zero, report
not yet registered. -/
def initState : TrackerState :=
  { head_allocs := []
    head_freed := []
    total_alloc_calls := 0
    total_free_calls := 0
    total_bytes_allocated := 0
    total_bytes_freed := 0
    invalid_free_count := 0
    double_free_count := 0
    atexit_registered := false }

/-- `register_leak_report`: if the `atexit` handler is not yet registered,
register it (we keep only the flag; the report itself is I/O). -/
def register_leak_report (s : TrackerState) : TrackerState :=
  if !s.atexit_registered then { s with atexit_registered := true } else s

/-- `record_allocation`: push a new node on the active list and bump the
allocation counters.  `nodeOk` is the oracle for the tracker's own
`malloc(sizeof(AllocInfo))`: when it fails the C code returns early and
records nothing. -/
def record_allocation (nodeOk : Bool) (ptr : Ptr) (size : Nat)
    (file : String) (line : Int) (s : TrackerState) : TrackerState :=
  if !nodeOk then s
  else
    { s with
      head_allocs := ⟨ptr, size, file, line⟩ :: s.head_allocs
      total_alloc_calls := s.total_alloc_calls + 1
      total_bytes_allocated := s.total_bytes_allocated + size }

/-- `remove_allocation_node`, expressed on the list: scan for the first node
whose `ptr` matches; if found return its size and the list with that node
unlinked, otherwise `none` (the C function returns 0 and leaves the list
unchanged). -/
def remove_allocation_node (ptr : Ptr) : List AllocInfo → Option (Nat × List AllocInfo)
  | [] => none
  | cur :: rest =>
    if cur.ptr = ptr then some (cur.size, rest)
    else
      match remove_allocation_node ptr rest with
      | none => none
      | some (sz, rest') => some (sz, cur :: rest')

/-- `is_in_freed_list`: linear scan of the freed list. -/
def is_in_freed_list (ptr : Ptr) : List Ptr → Bool
  | [] => false
  | cur :: rest => if cur = ptr then true else is_in_freed_list ptr rest

/-- `add_to_freed_list`: push `ptr` on the freed list.  `nodeOk` is the
oracle for the tracker's own `malloc(sizeof(FreedInfo))`: on failure the C
code returns without recording. -/
def add_to_freed_list (nodeOk : Bool) (ptr : Ptr) (s : TrackerState) : TrackerState :=
  if !nodeOk then s
  else { s with head_freed := ptr :: s.head_freed }

/-- `my_malloc(size, file, line)`.  `mallocRes` is the pointer the real
`malloc` returns (`0` = `NULL`, allocation failure); `nodeOk` is the oracle
for the tracking-node allocation inside `record_allocation`. -/
def my_malloc (nodeOk : Bool) (mallocRes : Ptr) (size : Nat)
    (file : String) (line : Int) (s : TrackerState) : Ptr × TrackerState :=
  let s := if !s.atexit_registered then register_leak_report s else s
  if mallocRes = 0 then (0, s)
  else (mallocRes, record_allocation nodeOk mallocRes size file line s)

/-- `my_calloc(nmemb, size, file, line)`: same shape as `my_malloc` but the
recorded size is `nmemb * size`. -/
def my_calloc (nodeOk : Bool) (callocRes : Ptr) (nmemb size : Nat)
    (file : String) (line : Int) (s : TrackerState) : Ptr × TrackerState :=
  let s := if !s.atexit_registered then register_leak_report s else s
  if callocRes = 0 then (0, s)
  else (callocRes, record_allocation nodeOk callocRes (nmemb * size) file line s)

/-- `my_free(ptr, file, line)`: always bumps `total_free_calls` first;
`free(NULL)` is a no-op; otherwise remove from the active list (valid free:
count freed bytes, push on the freed list) or classify against the freed
list (double free vs invalid free). -/
def my_free (nodeOk : Bool) (ptr : Ptr) (file : String) (line : Int)
    (s : TrackerState) : TrackerState :=
  let s := { s with total_free_calls := s.total_free_calls + 1 }
  if ptr = 0 then s
  else
    match remove_allocation_node ptr s.head_allocs with
    | some (block_size, rest) =>
      let s := { s with
        head_allocs := rest
        total_bytes_freed := s.total_bytes_freed + block_size }
      add_to_freed_list nodeOk ptr s
    | none =>
      if is_in_freed_list ptr s.head_freed then
        { s with double_free_count := s.double_free_count + 1 }
      else
        { s with invalid_free_count := s.invalid_free_count + 1 }

/-- `my_realloc(ptr, size, file, line)`.  Oracle arguments: `mallocRes` is
what the real `malloc` returns on the `ptr == NULL` path, `reallocRes` what
the real `realloc` returns on the other paths (`0` = `NULL`), `nodeOkFreed`
and `nodeOkAlloc` are the tracking-node oracles for `add_to_freed_list` and
`record_allocation`.  Mirrors the C control flow: NULL pointer behaves like
malloc; size 0 behaves like free and returns NULL; otherwise remove from
the active list — if absent classify (double vs invalid) and still forward
the real realloc; if present and the real realloc fails the removed record
is simply lost; on success push the old pointer on the freed list, record
the new allocation and count the old size as freed bytes. -/
def my_realloc (nodeOkFreed nodeOkAlloc : Bool) (mallocRes reallocRes : Ptr)
    (ptr : Ptr) (size : Nat) (file : String) (line : Int)
    (s : TrackerState) : Ptr × TrackerState :=
  let s := if !s.atexit_registered then register_leak_report s else s
  if ptr = 0 then
    if mallocRes = 0 then (0, s)
    else (mallocRes, record_allocation nodeOkAlloc mallocRes size file line s)
  else if size = 0 then
    (0, my_free nodeOkFreed ptr file line s)
  else
    match remove_allocation_node ptr s.head_allocs with
    | none =>
      if is_in_freed_list ptr s.head_freed then
        (reallocRes, { s with double_free_count := s.double_free_count + 1 })
      else
        (reallocRes, { s with invalid_free_count := s.invalid_free_count + 1 })
    | some (old_size, rest) =>
      if reallocRes = 0 then
        (0, { s with head_allocs := rest })
      else
        let s := { s with head_allocs := rest }
        let s := add_to_freed_list nodeOkFreed ptr s
        let s := record_allocation nodeOkAlloc reallocRes size file line s
        (reallocRes, { s with total_bytes_freed := s.total_bytes_freed + old_size })

/-- One tracked operation together with its oracle inputs, so that "after
every one of the four operations" can be quantified over a single type. -/
inductive Op where
  | malloc (nodeOk : Bool) (res : Ptr) (size : Nat) (file : String) (line : Int)
  | calloc (nodeOk : Bool) (res : Ptr) (nmemb size : Nat) (file : String) (line : Int)
  | realloc (nodeOkFreed nodeOkAlloc : Bool) (mallocRes reallocRes : Ptr)
      (ptr : Ptr) (size : Nat) (file : String) (line : Int)
  | free (nodeOk : Bool) (ptr : Ptr) (file : String) (line : Int)

/-- The state transition of one operation (result pointer dropped). -/
def applyOp : Op → TrackerState → TrackerState
  | .malloc nk r sz f l, s => (my_malloc nk r sz f l s).2
  | .calloc nk r n sz f l, s => (my_calloc nk r n sz f l s).2
  | .realloc nf na mr rr p sz f l, s => (my_realloc nf na mr rr p sz f l s).2
  | .free nk p f l, s => my_free nk p f l s

/-- Sum of the sizes recorded in the current Ledger entries. -/
def ledgerSum : List AllocInfo → Nat
  | [] => 0
  | a :: rest => a.size + ledgerSum rest

/-- Number of Ledger entries for pointer `p`. -/
def countPtr (p : Ptr) : List AllocInfo → Nat
  | [] => 0
  | a :: rest => (if a.ptr = p then 1 else 0) + countPtr p rest

/-- The one situation in which the Ledger-sum invariant is broken: a resize
of a currently tracked, non-null pointer to a non-zero size where the
underlying `realloc` fails — the record was already removed and is lost. -/
def isFailedTrackedResize (op : Op) (s : TrackerState) : Bool :=
  match op with
  | .realloc _ _ _ reallocRes p size _ _ =>
    decide (p ≠ 0) && decide (size ≠ 0) &&
      (remove_allocation_node p s.head_allocs).isSome && decide (reallocRes = 0)
  | _ => false

/-- A sequence of allocate/release pairs with matching identities: each
element carries the pointer the underlying allocator hands out, the
requested size and the call-site origin; the pair is `my_malloc`
immediately followed by `my_free` of the same identity. -/
def runPairs : List (Ptr × Nat × String × Int) → TrackerState → TrackerState
  | [], s => s
  | (p, sz, f, l) :: rest, s =>
    runPairs rest (my_free true p f l (my_malloc true p sz f l s).2)

/-! ### Helper lemmas about the list scans -/

theorem remove_eq_none_iff (p : Ptr) (l : List AllocInfo) :
    remove_allocation_node p l = none ↔ countPtr p l = 0 := by
  induction l with
  | nil => simp [remove_allocation_node, countPtr]
  | cons a rest ih =>
    by_cases h : a.ptr = p
    · simp [remove_allocation_node, countPtr, h]
    · simp only [remove_allocation_node, countPtr, h, if_false, ite_false]
      cases hr : remove_allocation_node p rest with
      | none =>
        rw [hr] at ih
        simp [ih.mp rfl]
      | some x =>
        rw [hr] at ih
        simp only [Option.some_ne_none, false_iff] at ih ⊢
        omega

theorem remove_some_sum (p : Ptr) (l : List AllocInfo) (sz : Nat) (rest : List AllocInfo)
    (h : remove_allocation_node p l = some (sz, rest)) :
    ledgerSum l = sz + ledgerSum rest := by
  induction l generalizing rest with
  | nil => simp [remove_allocation_node] at h
  | cons a tail ih =>
    by_cases ha : a.ptr = p
    · simp only [remove_allocation_node, ha, if_true, ite_true, Option.some.injEq,
        Prod.mk.injEq] at h
      obtain ⟨h1, h2⟩ := h
      subst h1; subst h2
      rfl
    · simp only [remove_allocation_node, ha, if_false, ite_false] at h
      cases hr : remove_allocation_node p tail with
      | none => rw [hr] at h; exact absurd h (by simp)
      | some x =>
        obtain ⟨sz', rest'⟩ := x
        rw [hr] at h
        simp only [Option.some.injEq, Prod.mk.injEq] at h
        obtain ⟨h1, h2⟩ := h
        subst h1; subst h2
        have := ih rest' hr
        simp only [ledgerSum, this]
        omega

theorem remove_some_count (p : Ptr) (l : List AllocInfo) (sz : Nat) (rest : List AllocInfo)
    (h : remove_allocation_node p l = some (sz, rest)) :
    countPtr p l = countPtr p rest + 1 := by
  induction l generalizing rest with
  | nil => simp [remove_allocation_node] at h
  | cons a tail ih =>
    by_cases ha : a.ptr = p
    · simp only [remove_allocation_node, ha, if_true, ite_true, Option.some.injEq,
        Prod.mk.injEq] at h
      obtain ⟨_, h2⟩ := h
      subst h2
      simp [countPtr, ha]
      omega
    · simp only [remove_allocation_node, ha, if_false, ite_false] at h
      cases hr : remove_allocation_node p tail with
      | none => rw [hr] at h; exact absurd h (by simp)
      | some x =>
        obtain ⟨sz', rest'⟩ := x
        rw [hr] at h
        simp only [Option.some.injEq, Prod.mk.injEq] at h
        obtain ⟨h1, h2⟩ := h
        subst h1; subst h2
        have := ih rest' hr
        simp [countPtr, ha, this]

theorem remove_some_length (p : Ptr) (l : List AllocInfo) (sz : Nat) (rest : List AllocInfo)
    (h : remove_allocation_node p l = some (sz, rest)) :
    l.length = rest.length + 1 := by
  induction l generalizing rest with
  | nil => simp [remove_allocation_node] at h
  | cons a tail ih =>
    by_cases ha : a.ptr = p
    · simp only [remove_allocation_node, ha, if_true, ite_true, Option.some.injEq,
        Prod.mk.injEq] at h
      obtain ⟨_, h2⟩ := h
      subst h2
      simp
    · simp only [remove_allocation_node, ha, if_false, ite_false] at h
      cases hr : remove_allocation_node p tail with
      | none => rw [hr] at h; exact absurd h (by simp)
      | some x =>
        obtain ⟨sz', rest'⟩ := x
        rw [hr] at h
        simp only [Option.some.injEq, Prod.mk.injEq] at h
        obtain ⟨h1, h2⟩ := h
        subst h1; subst h2
        have := ih rest' hr
        simp [this]

theorem remove_isSome_of_count (p : Ptr) (l : List AllocInfo) (h : countPtr p l ≠ 0) :
    ∃ sz rest, remove_allocation_node p l = some (sz, rest) := by
  cases hr : remove_allocation_node p l with
  | none => exact absurd ((remove_eq_none_iff p l).mp hr) h
  | some x =>
    obtain ⟨sz, rest⟩ := x
    exact ⟨sz, rest, rfl⟩

/-- The registration step at the top of every allocation wrapper always
leaves the state with the latch set and everything else unchanged. -/
theorem latch_eq (s : TrackerState) :
    (if !s.atexit_registered then register_leak_report s else s) =
      { s with atexit_registered := true } := by
  obtain ⟨a, b, c, d, e, f, g, h, i⟩ := s
  cases i <;> simp [register_leak_report]

/-! ### Shape lemmas for the wrappers -/

/-- `my_free(NULL)` only bumps the free-call counter. -/
theorem my_free_nil (nk : Bool) (f : String) (l : Int) (s : TrackerState) :
    my_free nk 0 f l s = { s with total_free_calls := s.total_free_calls + 1 } := rfl

/-- `my_free` on a pointer found in the Ledger: valid free. -/
theorem my_free_found (nk : Bool) (p : Ptr) (f : String) (l : Int) (s : TrackerState)
    (sz : Nat) (rest : List AllocInfo) (hp : p ≠ 0)
    (h : remove_allocation_node p s.head_allocs = some (sz, rest)) :
    my_free nk p f l s =
      add_to_freed_list nk p
        { s with
          total_free_calls := s.total_free_calls + 1
          head_allocs := rest
          total_bytes_freed := s.total_bytes_freed + sz } := by
  unfold my_free
  simp [hp, h]

/-- `my_free` on a pointer absent from the Ledger: classification only. -/
theorem my_free_notfound (nk : Bool) (p : Ptr) (f : String) (l : Int) (s : TrackerState)
    (hp : p ≠ 0) (h : remove_allocation_node p s.head_allocs = none) :
    my_free nk p f l s =
      if is_in_freed_list p s.head_freed then
        { s with
          total_free_calls := s.total_free_calls + 1
          double_free_count := s.double_free_count + 1 }
      else
        { s with
          total_free_calls := s.total_free_calls + 1
          invalid_free_count := s.invalid_free_count + 1 } := by
  unfold my_free
  simp [hp, h]

/-- `my_realloc` with a non-null pointer and size 0 forwards to `my_free`
after the latch registration. -/
theorem my_realloc_zero (nf na : Bool) (mr rr : Ptr) (p : Ptr) (f : String) (l : Int)
    (s : TrackerState) (hp : p ≠ 0) :
    my_realloc nf na mr rr p 0 f l s =
      (0, my_free nf p f l { s with atexit_registered := true }) := by
  unfold my_realloc
  rw [latch_eq]
  simp [hp]

/-- `my_realloc` on an untracked non-null pointer with non-zero size:
classify and forward the real realloc result untouched. -/
theorem my_realloc_notfound (nf na : Bool) (mr rr : Ptr) (p : Ptr) (sz : Nat)
    (f : String) (l : Int) (s : TrackerState)
    (hp : p ≠ 0) (hsz : sz ≠ 0) (h : remove_allocation_node p s.head_allocs = none) :
    my_realloc nf na mr rr p sz f l s =
      (rr,
        if is_in_freed_list p s.head_freed then
          { s with
            atexit_registered := true
            double_free_count := s.double_free_count + 1 }
        else
          { s with
            atexit_registered := true
            invalid_free_count := s.invalid_free_count + 1 }) := by
  unfold my_realloc
  rw [latch_eq]
  simp [hp, hsz, h]
  split <;> rfl

/-- `my_realloc` on a tracked pointer where the real `realloc` fails: the
record is gone and nothing compensates. -/
theorem my_realloc_found_fail (nf na : Bool) (mr : Ptr) (p : Ptr) (sz : Nat)
    (f : String) (l : Int) (s : TrackerState) (old : Nat) (rest : List AllocInfo)
    (hp : p ≠ 0) (hsz : sz ≠ 0)
    (h : remove_allocation_node p s.head_allocs = some (old, rest)) :
    my_realloc nf na mr 0 p sz f l s =
      (0, { s with atexit_registered := true, head_allocs := rest }) := by
  unfold my_realloc
  rw [latch_eq]
  simp [hp, hsz, h]

/-- `my_realloc` on a tracked pointer where the real `realloc` succeeds. -/
theorem my_realloc_found_ok (nf na : Bool) (mr rr : Ptr) (p : Ptr) (sz : Nat)
    (f : String) (l : Int) (s : TrackerState) (old : Nat) (rest : List AllocInfo)
    (hp : p ≠ 0) (hsz : sz ≠ 0) (hrr : rr ≠ 0)
    (h : remove_allocation_node p s.head_allocs = some (old, rest)) :
    my_realloc nf na mr rr p sz f l s =
      (rr,
        let s1 := add_to_freed_list nf p
          { s with atexit_registered := true, head_allocs := rest }
        let s2 := record_allocation na rr sz f l s1
        { s2 with total_bytes_freed := s2.total_bytes_freed + old }) := by
  unfold my_realloc
  rw [latch_eq]
  simp [hp, hsz, h, hrr]

/-- `add_to_freed_list` never touches the `atexit` latch. -/
theorem add_to_freed_list_atexit (nk : Bool) (p : Ptr) (s : TrackerState) :
    (add_to_freed_list nk p s).atexit_registered = s.atexit_registered := by
  unfold add_to_freed_list
  split <;> rfl

/-- `my_free` never touches the `atexit` latch. -/
theorem my_free_atexit_eq (nk : Bool) (p : Ptr) (f : String) (l : Int) (s : TrackerState) :
    (my_free nk p f l s).atexit_registered = s.atexit_registered := by
  by_cases hp : p = 0
  · subst hp
    rw [my_free_nil]
  · cases hr : remove_allocation_node p s.head_allocs with
    | none =>
      rw [my_free_notfound nk p f l s hp hr]
      split <;> rfl
    | some x =>
      obtain ⟨sz, rest⟩ := x
      rw [my_free_found nk p f l s sz rest hp hr, add_to_freed_list_atexit]

/-- `record_allocation` never touches the `atexit` latch. -/
theorem record_allocation_atexit (nk : Bool) (p : Ptr) (sz : Nat) (f : String) (l : Int)
    (s : TrackerState) :
    (record_allocation nk p sz f l s).atexit_registered = s.atexit_registered := by
  unfold record_allocation
  split <;> rfl

/-- `my_free` preserves the Ledger-sum accounting equation. -/
theorem my_free_inv (nk : Bool) (p : Ptr) (f : String) (l : Int) (s : TrackerState)
    (h : ledgerSum s.head_allocs + s.total_bytes_freed = s.total_bytes_allocated) :
    ledgerSum (my_free nk p f l s).head_allocs + (my_free nk p f l s).total_bytes_freed
      = (my_free nk p f l s).total_bytes_allocated := by
  by_cases hp : p = 0
  · subst hp
    rw [my_free_nil]
    exact h
  · cases hr : remove_allocation_node p s.head_allocs with
    | none =>
      rw [my_free_notfound nk p f l s hp hr]
      split <;> exact h
    | some x =>
      obtain ⟨sz, rest⟩ := x
      rw [my_free_found nk p f l s sz rest hp hr]
      have hsum := remove_some_sum p s.head_allocs sz rest hr
      unfold add_to_freed_list
      split <;> simp <;> omega

/-- `my_malloc` always leaves the latch set. -/
theorem my_malloc_atexit (nk : Bool) (r : Ptr) (sz : Nat) (f : String) (l : Int)
    (s : TrackerState) :
    (my_malloc nk r sz f l s).2.atexit_registered = true := by
  unfold my_malloc
  rw [latch_eq]
  split <;> simp [record_allocation_atexit]

/-- `my_calloc` always leaves the latch set. -/
theorem my_calloc_atexit (nk : Bool) (r : Ptr) (n sz : Nat) (f : String) (l : Int)
    (s : TrackerState) :
    (my_calloc nk r n sz f l s).2.atexit_registered = true := by
  unfold my_calloc
  rw [latch_eq]
  split <;> simp [record_allocation_atexit]

/-- `my_realloc` always leaves the latch set. -/
theorem my_realloc_atexit (nf na : Bool) (mr rr p : Ptr) (sz : Nat) (f : String) (l : Int)
    (s : TrackerState) :
    (my_realloc nf na mr rr p sz f l s).2.atexit_registered = true := by
  by_cases hp : p = 0
  · subst hp
    show (my_malloc na mr sz f l s).2.atexit_registered = true
    exact my_malloc_atexit na mr sz f l s
  · by_cases hsz : sz = 0
    · subst hsz
      rw [my_realloc_zero nf na mr rr p f l s hp]
      simp [my_free_atexit_eq]
    · cases hr : remove_allocation_node p s.head_allocs with
      | none =>
        rw [my_realloc_notfound nf na mr rr p sz f l s hp hsz hr]
        split <;> rfl
      | some x =>
        obtain ⟨old, rest⟩ := x
        by_cases hrr : rr = 0
        · subst hrr
          rw [my_realloc_found_fail nf na mr p sz f l s old rest hp hsz hr]
        · rw [my_realloc_found_ok nf na mr rr p sz f l s old rest hp hsz hrr hr]
          simp [record_allocation_atexit, add_to_freed_list_atexit]

/-- `my_malloc` when the underlying allocation and the tracking node both
succeed. -/
theorem my_malloc_ok (r : Ptr) (sz : Nat) (f : String) (li : Int) (s : TrackerState)
    (hr : r ≠ 0) :
    my_malloc true r sz f li s =
      (r,
        { s with
          atexit_registered := true
          head_allocs := ⟨r, sz, f, li⟩ :: s.head_allocs
          total_alloc_calls := s.total_alloc_calls + 1
          total_bytes_allocated := s.total_bytes_allocated + sz }) := by
  unfold my_malloc
  rw [latch_eq]
  simp [hr, record_allocation]

/-! ### The claims -/

/-- Claim C6: `resize(nil, N, origin)` is behaviorally identical to
`allocate(N, origin)`: same result pointer and the very same tracking
state, for every oracle answer, size, origin and starting state. -/
theorem C6_resize_nil_is_malloc (nf na : Bool) (mr rr : Ptr) (size : Nat)
    (f : String) (l : Int) (s : TrackerState) :
    my_realloc nf na mr rr 0 size f l s = my_malloc na mr size f l s := rfl

/-- Claim C8: every call to release increments the release-call count, and
release of a nil identity does nothing beyond that single increment: the
Ledger, the History and every other counter are unchanged. -/
theorem C8_release_count_nil_noop (nk : Bool) (p : Ptr) (f : String) (l : Int)
    (s : TrackerState) :
    (my_free nk p f l s).total_free_calls = s.total_free_calls + 1 ∧
    (p = 0 → my_free nk p f l s = { s with total_free_calls := s.total_free_calls + 1 }) := by
  constructor
  · by_cases hp : p = 0
    · subst hp
      rw [my_free_nil]
    · cases hr : remove_allocation_node p s.head_allocs with
      | none =>
        rw [my_free_notfound nk p f l s hp hr]
        split <;> rfl
      | some x =>
        obtain ⟨sz, rest⟩ := x
        rw [my_free_found nk p f l s sz rest hp hr]
        unfold add_to_freed_list
        split <;> rfl
  · intro hp
    subst hp
    rfl

/-- Witness for C8 at the concrete input `ptr = 0` on the initial state. -/
theorem C8_release_count_nil_noop_witness :
    my_free true 0 "w" 0 initState = { initState with total_free_calls := 1 } :=
  (C8_release_count_nil_noop true 0 "w" 0 initState).2 rfl

/-- Claim C2 (counterexample): release does NOT set the shutdown-report
latch — calling `my_free` on the initial (unlatched) state leaves the latch
unset, contradicting "after any single call to any of the four operations
the latch is set". -/
theorem C2_counterexample :
    initState.atexit_registered = false ∧
    (my_free true 1 "f" 1 initState).atexit_registered = false := by
  decide

/-- Claim C2 (amended): allocate, zero-allocate and resize latch the
shutdown report before any allocation logic runs (so the latch is set after
any single call to them), but release never touches the latch. -/
theorem C2_amended_latch :
    (∀ (nk : Bool) (r : Ptr) (sz : Nat) (f : String) (l : Int) (s : TrackerState),
      (my_malloc nk r sz f l s).2.atexit_registered = true) ∧
    (∀ (nk : Bool) (r : Ptr) (n sz : Nat) (f : String) (l : Int) (s : TrackerState),
      (my_calloc nk r n sz f l s).2.atexit_registered = true) ∧
    (∀ (nf na : Bool) (mr rr p : Ptr) (sz : Nat) (f : String) (l : Int) (s : TrackerState),
      (my_realloc nf na mr rr p sz f l s).2.atexit_registered = true) ∧
    (∀ (nk : Bool) (p : Ptr) (f : String) (l : Int) (s : TrackerState),
      (my_free nk p f l s).atexit_registered = s.atexit_registered) :=
  ⟨my_malloc_atexit, my_calloc_atexit, my_realloc_atexit, my_free_atexit_eq⟩

/-- Claim C10: resizing a non-nil pointer to a non-zero size when the
pointer is absent from the Ledger bumps exactly one classification counter
(double-release if the pointer is in the History, else invalid-release),
leaves the Ledger, the History and every other counter unchanged, and
forwards the underlying realloc's result without recording it. -/
theorem C10_untracked_resize_frame (nf na : Bool) (mr rr : Ptr) (p : Ptr) (size : Nat)
    (f : String) (l : Int) (s : TrackerState)
    (hp : p ≠ 0) (hsz : size ≠ 0) (habs : countPtr p s.head_allocs = 0) :
    (my_realloc nf na mr rr p size f l s).1 = rr ∧
    (my_realloc nf na mr rr p size f l s).2.head_allocs = s.head_allocs ∧
    (my_realloc nf na mr rr p size f l s).2.head_freed = s.head_freed ∧
    (my_realloc nf na mr rr p size f l s).2.total_alloc_calls = s.total_alloc_calls ∧
    (my_realloc nf na mr rr p size f l s).2.total_free_calls = s.total_free_calls ∧
    (my_realloc nf na mr rr p size f l s).2.total_bytes_allocated = s.total_bytes_allocated ∧
    (my_realloc nf na mr rr p size f l s).2.total_bytes_freed = s.total_bytes_freed ∧
    (is_in_freed_list p s.head_freed = true →
      (my_realloc nf na mr rr p size f l s).2.double_free_count = s.double_free_count + 1 ∧
      (my_realloc nf na mr rr p size f l s).2.invalid_free_count = s.invalid_free_count) ∧
    (is_in_freed_list p s.head_freed = false →
      (my_realloc nf na mr rr p size f l s).2.invalid_free_count = s.invalid_free_count + 1 ∧
      (my_realloc nf na mr rr p size f l s).2.double_free_count = s.double_free_count) := by
  have hnone := (remove_eq_none_iff p s.head_allocs).mpr habs
  rw [my_realloc_notfound nf na mr rr p size f l s hp hsz hnone]
  by_cases hf : is_in_freed_list p s.head_freed <;> simp [hf]

/-- Witness for C10: resizing the never-allocated pointer 1 on the initial
state forwards the realloc result and counts one invalid release. -/
theorem C10_untracked_resize_frame_witness :
    (my_realloc true true 0 7 1 8 "w" 1 initState).1 = 7 ∧
    (my_realloc true true 0 7 1 8 "w" 1 initState).2.head_allocs = initState.head_allocs ∧
    (my_realloc true true 0 7 1 8 "w" 1 initState).2.invalid_free_count =
      initState.invalid_free_count + 1 := by
  have h := C10_untracked_resize_frame true true 0 7 1 8 "w" 1 initState
    (by decide) (by decide) (by decide)
  exact ⟨h.1, h.2.1, (h.2.2.2.2.2.2.2.2 (by decide)).1⟩

/-- Claim C7: `resize(ptr, 0, origin)` on a tracked pointer acts as
`release(ptr, origin)`: it returns nil and produces exactly the state
`my_free` produces (once the resize path's latch registration is
accounted for); in particular the Ledger entry is removed, the History
grows by the released pointer, the bytes-released total increases by the
recorded size and the release-call count increments. -/
theorem C7_resize_zero_is_release (na : Bool) (mr rr : Ptr) (p : Ptr) (f : String)
    (l : Int) (s : TrackerState) (sz : Nat) (rest : List AllocInfo)
    (hp : p ≠ 0) (hfound : remove_allocation_node p s.head_allocs = some (sz, rest)) :
    my_realloc true na mr rr p 0 f l s =
      (0, my_free true p f l { s with atexit_registered := true }) ∧
    (my_realloc true na mr rr p 0 f l s).2.head_allocs = rest ∧
    (my_realloc true na mr rr p 0 f l s).2.head_freed = p :: s.head_freed ∧
    (my_realloc true na mr rr p 0 f l s).2.total_bytes_freed = s.total_bytes_freed + sz ∧
    (my_realloc true na mr rr p 0 f l s).2.total_free_calls = s.total_free_calls + 1 := by
  have heq := my_realloc_zero true na mr rr p f l s hp
  have hfound' :
      remove_allocation_node p
        ({ s with atexit_registered := true } : TrackerState).head_allocs = some (sz, rest) :=
    hfound
  have hfree := my_free_found true p f l { s with atexit_registered := true } sz rest hp hfound'
  refine ⟨heq, ?_, ?_, ?_, ?_⟩ <;> rw [heq] <;> simp [hfree, add_to_freed_list]

/-- Witness for C7: resize-to-zero of the one tracked pointer of a
one-allocation state. -/
theorem C7_resize_zero_is_release_witness :
    my_realloc true true 0 0 1 0 "w" 2 (my_malloc true 1 4 "w" 1 initState).2 =
      (0, my_free true 1 "w" 2
        { (my_malloc true 1 4 "w" 1 initState).2 with atexit_registered := true }) :=
  (C7_resize_zero_is_release true 0 0 1 "w" 2 (my_malloc true 1 4 "w" 1 initState).2 4 []
    (by decide) (by decide)).1

/-- Claim C5: releasing an identity that occurs (once) in the Ledger twice
in succession: the first release shrinks the Ledger by one and grows the
History by one without touching the double-release count, the second
release increments the double-release count by exactly one and leaves the
bytes-released total unchanged. -/
theorem C5_double_release (p : Ptr) (f1 f2 : String) (l1 l2 : Int) (s : TrackerState)
    (hp : p ≠ 0) (h1 : countPtr p s.head_allocs = 1) :
    (my_free true p f1 l1 s).head_allocs.length + 1 = s.head_allocs.length ∧
    (my_free true p f1 l1 s).head_freed.length = s.head_freed.length + 1 ∧
    (my_free true p f1 l1 s).double_free_count = s.double_free_count ∧
    (my_free true p f2 l2 (my_free true p f1 l1 s)).double_free_count
      = s.double_free_count + 1 ∧
    (my_free true p f2 l2 (my_free true p f1 l1 s)).total_bytes_freed
      = (my_free true p f1 l1 s).total_bytes_freed := by
  obtain ⟨sz, rest, hr⟩ := remove_isSome_of_count p s.head_allocs (by omega)
  have hlen := remove_some_length p s.head_allocs sz rest hr
  have hcnt := remove_some_count p s.head_allocs sz rest hr
  have hs1 : my_free true p f1 l1 s =
      { s with
        total_free_calls := s.total_free_calls + 1
        head_allocs := rest
        total_bytes_freed := s.total_bytes_freed + sz
        head_freed := p :: s.head_freed } := by
    rw [my_free_found true p f1 l1 s sz rest hp hr]
    rfl
  have hrest0 : countPtr p rest = 0 := by omega
  have hnone := (remove_eq_none_iff p rest).mpr hrest0
  rw [hs1]
  have hfree2 := my_free_notfound true p f2 l2
    ({ s with
        total_free_calls := s.total_free_calls + 1
        head_allocs := rest
        total_bytes_freed := s.total_bytes_freed + sz
        head_freed := p :: s.head_freed } : TrackerState) hp hnone
  rw [hfree2]
  simp [is_in_freed_list, hlen]

/-- Witness for C5 on a one-allocation state. -/
theorem C5_double_release_witness :
    (my_free true 1 "w" 3 (my_free true 1 "w" 2 (my_malloc true 1 4 "w" 1 initState).2)).double_free_count
      = (my_malloc true 1 4 "w" 1 initState).2.double_free_count + 1 :=
  (C5_double_release 1 "w" "w" 2 3 (my_malloc true 1 4 "w" 1 initState).2
    (by decide) (by decide)).2.2.2.1

/-- Claim C3 (counterexample): allocate pointer 1, release it (it enters
the History), allocate pointer 1 again (it re-enters the Ledger), then
release it: the double-release count stays 0 — the release of the
re-allocated identity is a valid release, not a double-release as the
claim states. -/
theorem C3_counterexample :
    is_in_freed_list 1
        ((my_malloc true 1 4 "a" 3
          (my_free true 1 "a" 2 (my_malloc true 1 4 "a" 1 initState).2)).2).head_freed = true ∧
    countPtr 1
        ((my_malloc true 1 4 "a" 3
          (my_free true 1 "a" 2 (my_malloc true 1 4 "a" 1 initState).2)).2).head_allocs = 1 ∧
    (my_free true 1 "a" 4
        (my_malloc true 1 4 "a" 3
          (my_free true 1 "a" 2 (my_malloc true 1 4 "a" 1 initState).2)).2).double_free_count
      = 0 := by
  decide

/-- Claim C3 (amended): when an identity in the History re-enters the
Ledger via a later allocation, a subsequent release of that new allocation
is a *valid* release — the Ledger entry is removed and neither the
double-release nor the invalid-release count changes; the identity merely
stays in the History, so only a further release of it (now absent from the
Ledger) is reported as double-release. -/
theorem C3_amended_reuse_release (p : Ptr) (f1 f2 : String) (l1 l2 : Int)
    (s : TrackerState)
    (hp : p ≠ 0) (h1 : countPtr p s.head_allocs = 1)
    (hH : is_in_freed_list p s.head_freed = true) :
    (my_free true p f1 l1 s).double_free_count = s.double_free_count ∧
    (my_free true p f1 l1 s).invalid_free_count = s.invalid_free_count ∧
    countPtr p (my_free true p f1 l1 s).head_allocs = 0 ∧
    is_in_freed_list p (my_free true p f1 l1 s).head_freed = true ∧
    (my_free true p f2 l2 (my_free true p f1 l1 s)).double_free_count
      = s.double_free_count + 1 := by
  obtain ⟨sz, rest, hr⟩ := remove_isSome_of_count p s.head_allocs (by omega)
  have hcnt := remove_some_count p s.head_allocs sz rest hr
  have hs1 : my_free true p f1 l1 s =
      { s with
        total_free_calls := s.total_free_calls + 1
        head_allocs := rest
        total_bytes_freed := s.total_bytes_freed + sz
        head_freed := p :: s.head_freed } := by
    rw [my_free_found true p f1 l1 s sz rest hp hr]
    rfl
  have hrest0 : countPtr p rest = 0 := by omega
  have hnone := (remove_eq_none_iff p rest).mpr hrest0
  rw [hs1]
  have hfree2 := my_free_notfound true p f2 l2
    ({ s with
        total_free_calls := s.total_free_calls + 1
        head_allocs := rest
        total_bytes_freed := s.total_bytes_freed + sz
        head_freed := p :: s.head_freed } : TrackerState) hp hnone
  rw [hfree2]
  simp [is_in_freed_list, hrest0]

/-- Witness for C3 (amended) at the concrete reuse trace. -/
theorem C3_amended_reuse_release_witness :
    (my_free true 1 "a" 4
        (my_malloc true 1 4 "a" 3
          (my_free true 1 "a" 2 (my_malloc true 1 4 "a" 1 initState).2)).2).double_free_count
      = (my_malloc true 1 4 "a" 3
          (my_free true 1 "a" 2 (my_malloc true 1 4 "a" 1 initState).2)).2.double_free_count :=
  (C3_amended_reuse_release 1 "a" "a" 4 5
    (my_malloc true 1 4 "a" 3
      (my_free true 1 "a" 2 (my_malloc true 1 4 "a" 1 initState).2)).2
    (by decide) (by decide) (by decide)).1

/-- Claim C9 (counterexample): allocate pointer 1, release it, allocate it
again, then resize it with a failing underlying realloc.  The claim says
the identity is afterwards absent from the History and that a subsequent
release is classified invalid-release; in fact the identity is still in
the History (it was never removed), so the subsequent release is counted
as a double-release and the invalid-release count stays 0. -/
theorem C9_counterexample :
    is_in_freed_list 1
        ((my_realloc true true 0 0 1 8 "a" 4
          (my_malloc true 1 4 "a" 3
            (my_free true 1 "a" 2 (my_malloc true 1 4 "a" 1 initState).2)).2).2).head_freed
      = true ∧
    (my_free true 1 "a" 5
        (my_realloc true true 0 0 1 8 "a" 4
          (my_malloc true 1 4 "a" 3
            (my_free true 1 "a" 2 (my_malloc true 1 4 "a" 1 initState).2)).2).2).invalid_free_count
      = 0 ∧
    (my_free true 1 "a" 5
        (my_realloc true true 0 0 1 8 "a" 4
          (my_malloc true 1 4 "a" 3
            (my_free true 1 "a" 2 (my_malloc true 1 4 "a" 1 initState).2)).2).2).double_free_count
      = 1 := by
  decide

/-- Claim C9 (amended): a failing resize of a tracked non-nil pointer with
non-zero size removes the identity from the Ledger, leaves the History and
every counter unchanged, and returns nil; a subsequent release of that
identity is classified invalid-release when the identity was not in the
History, and double-release when it was. -/
theorem C9_amended_failed_resize (nf na nf2 : Bool) (mr : Ptr) (p : Ptr) (size : Nat)
    (f f2 : String) (l l2 : Int) (s : TrackerState) (sz : Nat) (rest : List AllocInfo)
    (hp : p ≠ 0) (hsz : size ≠ 0)
    (h1 : countPtr p s.head_allocs = 1)
    (hfound : remove_allocation_node p s.head_allocs = some (sz, rest)) :
    (my_realloc nf na mr 0 p size f l s).1 = 0 ∧
    countPtr p (my_realloc nf na mr 0 p size f l s).2.head_allocs = 0 ∧
    (my_realloc nf na mr 0 p size f l s).2.head_freed = s.head_freed ∧
    (my_realloc nf na mr 0 p size f l s).2.total_bytes_freed = s.total_bytes_freed ∧
    (my_realloc nf na mr 0 p size f l s).2.total_bytes_allocated = s.total_bytes_allocated ∧
    (my_realloc nf na mr 0 p size f l s).2.total_alloc_calls = s.total_alloc_calls ∧
    (my_realloc nf na mr 0 p size f l s).2.total_free_calls = s.total_free_calls ∧
    (my_realloc nf na mr 0 p size f l s).2.double_free_count = s.double_free_count ∧
    (my_realloc nf na mr 0 p size f l s).2.invalid_free_count = s.invalid_free_count ∧
    (is_in_freed_list p s.head_freed = false →
      (my_free nf2 p f2 l2 (my_realloc nf na mr 0 p size f l s).2).invalid_free_count
          = s.invalid_free_count + 1 ∧
      (my_free nf2 p f2 l2 (my_realloc nf na mr 0 p size f l s).2).double_free_count
          = s.double_free_count) ∧
    (is_in_freed_list p s.head_freed = true →
      (my_free nf2 p f2 l2 (my_realloc nf na mr 0 p size f l s).2).double_free_count
          = s.double_free_count + 1 ∧
      (my_free nf2 p f2 l2 (my_realloc nf na mr 0 p size f l s).2).invalid_free_count
          = s.invalid_free_count) := by
  have hcnt := remove_some_count p s.head_allocs sz rest hfound
  have hrest0 : countPtr p rest = 0 := by omega
  have hnone := (remove_eq_none_iff p rest).mpr hrest0
  rw [my_realloc_found_fail nf na mr p size f l s sz rest hp hsz hfound]
  have hfree2 := my_free_notfound nf2 p f2 l2
    ({ s with atexit_registered := true, head_allocs := rest } : TrackerState) hp hnone
  rw [hfree2]
  refine ⟨rfl, hrest0, rfl, rfl, rfl, rfl, rfl, rfl, rfl, ?_, ?_⟩ <;>
    intro hf <;> simp [hf]

/-- Witness for C9 (amended) on a fresh one-allocation state. -/
theorem C9_amended_failed_resize_witness :
    (my_realloc true true 0 0 1 8 "w" 2 (my_malloc true 1 4 "w" 1 initState).2).1 = 0 ∧
    (my_free true 1 "w" 3
        (my_realloc true true 0 0 1 8 "w" 2
          (my_malloc true 1 4 "w" 1 initState).2).2).invalid_free_count
      = (my_malloc true 1 4 "w" 1 initState).2.invalid_free_count + 1 := by
  have h := C9_amended_failed_resize true true true 0 1 8 "w" "w" 2 3
    (my_malloc true 1 4 "w" 1 initState).2 4 []
    (by decide) (by decide) (by decide) (by decide)
  exact ⟨h.1, (h.2.2.2.2.2.2.2.2.2.1 (by decide)).1⟩

/-- Invariant carried through a run of allocate/release pairs: empty
Ledger, no misuse counted, and balanced byte totals. -/
theorem runPairs_clean (l : List (Ptr × Nat × String × Int)) (s : TrackerState)
    (hl : ∀ x ∈ l, x.1 ≠ 0)
    (h : s.head_allocs = [] ∧ s.double_free_count = 0 ∧ s.invalid_free_count = 0 ∧
      s.total_bytes_allocated = s.total_bytes_freed) :
    (runPairs l s).head_allocs = [] ∧
    (runPairs l s).double_free_count = 0 ∧
    (runPairs l s).invalid_free_count = 0 ∧
    (runPairs l s).total_bytes_allocated = (runPairs l s).total_bytes_freed := by
  induction l generalizing s with
  | nil => exact h
  | cons x rest ih =>
    obtain ⟨p, sz, f, li⟩ := x
    have hp : p ≠ 0 := hl (p, sz, f, li) (List.mem_cons_self _ _)
    obtain ⟨hA, hD, hI, hB⟩ := h
    show (runPairs rest (my_free true p f li (my_malloc true p sz f li s).2)).head_allocs = [] ∧ _
    apply ih
    · intro y hy
      exact hl y (List.mem_cons_of_mem _ hy)
    · rw [my_malloc_ok p sz f li s hp]
      have hrem : remove_allocation_node p
          (({ s with
              atexit_registered := true
              head_allocs := ⟨p, sz, f, li⟩ :: s.head_allocs
              total_alloc_calls := s.total_alloc_calls + 1
              total_bytes_allocated := s.total_bytes_allocated + sz } : TrackerState)).head_allocs
          = some (sz, s.head_allocs) := by
        simp [remove_allocation_node]
      rw [my_free_found true p f li _ sz s.head_allocs hp hrem]
      unfold add_to_freed_list
      simp [hA, hD, hI]
      omega

/-- Claim C4: for every sequence of allocate/release pairs with matching
non-nil identities in which every underlying allocation succeeds, the run
from the initial state ends with an empty Ledger, zero double-release and
invalid-release counts, and equal bytes-allocated and bytes-released
totals. -/
theorem C4_alloc_release_pairs (l : List (Ptr × Nat × String × Int))
    (hl : ∀ x ∈ l, x.1 ≠ 0) :
    (runPairs l initState).head_allocs = [] ∧
    (runPairs l initState).double_free_count = 0 ∧
    (runPairs l initState).invalid_free_count = 0 ∧
    (runPairs l initState).total_bytes_allocated = (runPairs l initState).total_bytes_freed :=
  runPairs_clean l initState hl ⟨rfl, rfl, rfl, rfl⟩

/-- Witness for C4 with two concrete pairs. -/
theorem C4_alloc_release_pairs_witness :
    (runPairs [(1, 4, "a", 1), (2, 8, "b", 2)] initState).head_allocs = [] ∧
    (runPairs [(1, 4, "a", 1), (2, 8, "b", 2)] initState).double_free_count = 0 ∧
    (runPairs [(1, 4, "a", 1), (2, 8, "b", 2)] initState).invalid_free_count = 0 ∧
    (runPairs [(1, 4, "a", 1), (2, 8, "b", 2)] initState).total_bytes_allocated
      = (runPairs [(1, 4, "a", 1), (2, 8, "b", 2)] initState).total_bytes_freed :=
  C4_alloc_release_pairs [(1, 4, "a", 1), (2, 8, "b", 2)] (by decide)

/-- `record_allocation` preserves the Ledger-sum accounting equation. -/
theorem record_allocation_inv (nk : Bool) (r : Ptr) (sz : Nat) (f : String) (li : Int)
    (s : TrackerState)
    (h : ledgerSum s.head_allocs + s.total_bytes_freed = s.total_bytes_allocated) :
    ledgerSum (record_allocation nk r sz f li s).head_allocs
        + (record_allocation nk r sz f li s).total_bytes_freed
      = (record_allocation nk r sz f li s).total_bytes_allocated := by
  unfold record_allocation
  split
  · exact h
  · simp [ledgerSum]
    omega

/-- `my_malloc` preserves the Ledger-sum accounting equation. -/
theorem my_malloc_inv (nk : Bool) (r : Ptr) (sz : Nat) (f : String) (li : Int)
    (s : TrackerState)
    (h : ledgerSum s.head_allocs + s.total_bytes_freed = s.total_bytes_allocated) :
    ledgerSum (my_malloc nk r sz f li s).2.head_allocs
        + (my_malloc nk r sz f li s).2.total_bytes_freed
      = (my_malloc nk r sz f li s).2.total_bytes_allocated := by
  unfold my_malloc
  rw [latch_eq]
  split
  · exact h
  · exact record_allocation_inv nk r sz f li _ h

/-- `my_calloc` preserves the Ledger-sum accounting equation. -/
theorem my_calloc_inv (nk : Bool) (r : Ptr) (n sz : Nat) (f : String) (li : Int)
    (s : TrackerState)
    (h : ledgerSum s.head_allocs + s.total_bytes_freed = s.total_bytes_allocated) :
    ledgerSum (my_calloc nk r n sz f li s).2.head_allocs
        + (my_calloc nk r n sz f li s).2.total_bytes_freed
      = (my_calloc nk r n sz f li s).2.total_bytes_allocated := by
  unfold my_calloc
  rw [latch_eq]
  split
  · exact h
  · exact record_allocation_inv nk r (n * sz) f li _ h

/-- Claim C1 (counterexample): allocate 4 bytes at pointer 1, then resize
it to 8 bytes with the underlying realloc failing.  The Ledger entry is
removed but no counter compensates, so the sum of the Ledger sizes (0) no
longer equals bytes-allocated (4) minus bytes-released (0). -/
theorem C1_counterexample :
    ledgerSum ((my_realloc true true 0 0 1 8 "a" 2
        (my_malloc true 1 4 "a" 1 initState).2).2).head_allocs
      ≠ ((my_realloc true true 0 0 1 8 "a" 2
          (my_malloc true 1 4 "a" 1 initState).2).2).total_bytes_allocated
        - ((my_realloc true true 0 0 1 8 "a" 2
            (my_malloc true 1 4 "a" 1 initState).2).2).total_bytes_freed := by
  decide

/-- Claim C1 (amended): the Ledger-sum accounting equation
"sum of Ledger sizes = bytes-allocated − bytes-released" is preserved by
every one of the four operations *except* a resize of a tracked non-nil
pointer to a non-zero size whose underlying realloc fails (there the
removed record is lost); outside that one case the equation holds exactly
after the operation whenever it held before. -/
theorem C1_amended_ledger_sum (op : Op) (s : TrackerState)
    (hInv : ledgerSum s.head_allocs + s.total_bytes_freed = s.total_bytes_allocated)
    (hok : isFailedTrackedResize op s = false) :
    ledgerSum (applyOp op s).head_allocs + (applyOp op s).total_bytes_freed
        = (applyOp op s).total_bytes_allocated ∧
    ledgerSum (applyOp op s).head_allocs
        = (applyOp op s).total_bytes_allocated - (applyOp op s).total_bytes_freed := by
  have main : ledgerSum (applyOp op s).head_allocs + (applyOp op s).total_bytes_freed
      = (applyOp op s).total_bytes_allocated := by
    cases op with
    | malloc nk r sz f li => exact my_malloc_inv nk r sz f li s hInv
    | calloc nk r n sz f li => exact my_calloc_inv nk r n sz f li s hInv
    | free nk p f li => exact my_free_inv nk p f li s hInv
    | realloc nf na mr rr p sz f li =>
      simp only [applyOp]
      by_cases hp : p = 0
      · subst hp
        exact my_malloc_inv na mr sz f li s hInv
      · by_cases hsz : sz = 0
        · subst hsz
          rw [my_realloc_zero nf na mr rr p f li s hp]
          exact my_free_inv nf p f li { s with atexit_registered := true } hInv
        · cases hr : remove_allocation_node p s.head_allocs with
          | none =>
            rw [my_realloc_notfound nf na mr rr p sz f li s hp hsz hr]
            split <;> exact hInv
          | some x =>
            obtain ⟨old, rest⟩ := x
            by_cases hrr : rr = 0
            · exfalso
              subst hrr
              simp [isFailedTrackedResize, hp, hsz, hr] at hok
            · rw [my_realloc_found_ok nf na mr rr p sz f li s old rest hp hsz hrr hr]
              have hsum := remove_some_sum p s.head_allocs old rest hr
              unfold record_allocation add_to_freed_list
              repeat' split
              all_goals simp [ledgerSum]
              all_goals omega
  exact ⟨main, by omega⟩

/-- Witness for C1 (amended): a successful allocation on the initial
state keeps the accounting equation. -/
theorem C1_amended_ledger_sum_witness :
    ledgerSum (applyOp (Op.malloc true 1 4 "a" 1) initState).head_allocs
        + (applyOp (Op.malloc true 1 4 "a" 1) initState).total_bytes_freed
      = (applyOp (Op.malloc true 1 4 "a" 1) initState).total_bytes_allocated ∧
    ledgerSum (applyOp (Op.malloc true 1 4 "a" 1) initState).head_allocs
      = (applyOp (Op.malloc true 1 4 "a" 1) initState).total_bytes_allocated
        - (applyOp (Op.malloc true 1 4 "a" 1) initState).total_bytes_freed :=
  C1_amended_ledger_sum (Op.malloc true 1 4 "a" 1) initState (by decide) (by decide)

end LeakTracker
